import Mathlib

/-!
Verification of the rs_pxe PXE/TFTP server against its specification.

The Rust sources `src/tftp_state.rs` and `src/dhcp/parse.rs` are shallowly
embedded below.  Machine integers are modelled as `Nat` with an explicit
`% 2 ^ 16` where 16-bit overflow matters; Rust `Result` becomes `Except`,
and a Rust panic (an `unwrap` of `None`, an out-of-bounds index, or a
failed debug assertion) is modelled as `Option.none` on the outside of the
returned value.  Repository modules that are referenced but not part of
the sources at hand (`dhcp/options.rs`, `dhcp/error.rs`, `utils.rs`, the
prelude) are modelled from the specification; each such definition carries
a doc comment starting with `Modelled from the spec:`.
-/

/-- Modelled from the spec: the error taxonomy of `dhcp/error.rs` / the
prelude (not among the given sources).  Constructors follow the table in
section 7 of the specification; only the constructors used by the embedded
code are included. -/
inductive Error where
  | Ignore (reason : String)
  | IgnoreNoLog (reason : String)
  | Malformed (detail : String)
  | MissingDhcpOption (name : String)
  | Tftp (detail : String)
  | TftpEndOfFile
  | Generic (detail : String)
deriving Repr, DecidableEq

/-- Modelled from the spec: a `TftpConnection` is an immutable 6-tuple of
addresses and ports (`src/tftp_state.rs`); addresses are opaque here and
modelled as numbers. -/
structure TftpConnection where
  server_ip : Nat
  server_mac : Nat
  client_ip : Nat
  client_mac : Nat
  server_port : Nat
  client_port : Nat
deriving Repr, DecidableEq

/-- The option keys of `TftpOptionEnum` in `src/tftp_state.rs`. -/
inductive TftpOptionEnum where
  | Blksize
  | Tsize
deriving Repr, DecidableEq

/-- `TftpOptions`: a map from the two-element key type `TftpOptionEnum` to
`usize` values (`BTreeMap` in the source), represented by one optional
value per key. -/
structure TftpOptions where
  blksize : Option Nat
  tsize : Option Nat
deriving Repr, DecidableEq

def TftpOptions.new : TftpOptions := ⟨none, none⟩

def TftpOptions.get (o : TftpOptions) : TftpOptionEnum → Option Nat
  | .Blksize => o.blksize
  | .Tsize => o.tsize

def TftpOptions.has (o : TftpOptions) (k : TftpOptionEnum) : Bool :=
  (o.get k).isSome

def TftpOptions.add (o : TftpOptions) (k : TftpOptionEnum) (v : Nat) : TftpOptions :=
  match k with
  | .Blksize => { o with blksize := some v }
  | .Tsize => { o with tsize := some v }

/-- `TftpOptions::to_str_str`: the `BTreeMap` iterates its keys in derived
order, `Blksize` before `Tsize` (which coincides with the alphabetic order
of the produced string keys). -/
def TftpOptions.to_str_str (o : TftpOptions) : List (String × String) :=
  (match o.blksize with
   | some v => [("blksize", toString v)]
   | none => []) ++
  (match o.tsize with
   | some v => [("tsize", toString v)]
   | none => [])

/-- The TFTP payloads built by `src/tftp_state.rs`: `Repr::Data` and
`Repr::OptionAck` of the smolapps wire module.  An option acknowledgement
carries the emitted option bytes. -/
inductive TftpRepr where
  | Data (block_num : Nat) (data : List Nat)
  | OptionAck (opts : List Nat)
deriving Repr, DecidableEq

/-- Modelled from the spec: `utils::tftp_to_ether_unicast` (in `utils.rs`,
not among the given sources) frames a TFTP payload into an
Ethernet/IPv4/UDP unicast packet for the given connection; the model keeps
the payload and the connection, which is all the claims inspect. -/
structure EtherFrame where
  repr : TftpRepr
  conn : TftpConnection
deriving Repr, DecidableEq

def tftp_to_ether_unicast (r : TftpRepr) (c : TftpConnection) : EtherFrame :=
  ⟨r, c⟩

/-- An active TFTP transfer (`Transfer<H>` in `src/tftp_state.rs`).  The
generic file handle is instantiated with an in-memory byte list, as the
test handle `TestTftp` does with a file: `read` into a buffer of length
`n` consumes and returns `min n remaining` bytes and never fails.
`Instant` is modelled as a number of milliseconds. -/
structure Transfer where
  handle : List Nat
  connection : TftpConnection
  is_write : Bool
  block_num : Nat
  options : TftpOptions
  retries : Nat
  timeout : Nat
deriving Repr, DecidableEq

/-- `Transfer::new`; `Instant::now()` is passed in as `now`. -/
def Transfer.new (xfer_idx : List Nat) (connection : TftpConnection)
    (is_write : Bool) (now : Nat) : Transfer :=
  { handle := xfer_idx
    connection := connection
    options := TftpOptions.new
    is_write := is_write
    retries := 0
    timeout := now + 200
    block_num := 0 }

/-- `Transfer::reset_timeout`. -/
def Transfer.reset_timeout (t : Transfer) (now : Nat) : Transfer :=
  { t with timeout := now + 200 }

/-- The error message built at `src/tftp_state.rs:179`. -/
def ackMismatchMsg (received expected : Nat) : String :=
  "tftp: received ack for block " ++ toString received ++
    " but expected " ++ toString expected

/-- `Transfer::send_data` (`src/tftp_state.rs:177-216`).  The result is
`none` when the Rust code panics (the `unwrap` of the `Blksize` lookup at
line 189); otherwise it is the returned `Result` paired with the state of
`self` at the point of return.  `block_num` is a `u16`, so its increment
is taken modulo `2 ^ 16`. -/
def Transfer.send_data (t : Transfer) (ack_block_num : Nat) (now : Nat) :
    Option (Except Error EtherFrame × Transfer) :=
  if ack_block_num ≠ t.block_num then
    some (.error (.Tftp (ackMismatchMsg ack_block_num t.block_num)), t)
  else
    let t1 := t.reset_timeout now
    match t1.options.get .Blksize with
    | none => none
    | some blksize =>
      let chunk := t1.handle.take blksize
      let bytes_read := chunk.length
      let t2 := { t1 with handle := t1.handle.drop blksize }
      if bytes_read = 0 then
        some (.error .TftpEndOfFile, t2)
      else
        let data := TftpRepr.Data ((t2.block_num + 1) % 65536) chunk
        let t3 := { t2 with block_num := (t2.block_num + 1) % 65536 }
        some (.ok (tftp_to_ether_unicast data t3.connection), t3)

/-- Modelled from the spec: `TftpOption::len()` of the smolapps codec; an
option is emitted as NUL-terminated name and value, so its length is
`name.len() + value.len() + 2` (section 4.A of the specification). -/
def optLen (nv : String × String) : Nat :=
  nv.1.length + nv.2.length + 2

def strBytes (s : String) : List Nat :=
  s.toList.map Char.toNat

/-- Modelled from the spec: the encoding one `emit` call appends —
NUL-terminated name, then NUL-terminated value. -/
def encodeOpt (nv : String × String) : List Nat :=
  strBytes nv.1 ++ [0] ++ strBytes nv.2 ++ [0]

/-- Modelled from the spec: `TftpOptsWriter` over a buffer of `cap` bytes
with `buf` already written; each `emit` fails (and the source `unwrap`s,
hence `none`) when the option does not fit. -/
def emitAll (cap : Nat) (buf : List Nat) : List (String × String) → Option (List Nat)
  | [] => some buf
  | nv :: rest =>
    if buf.length + optLen nv ≤ cap then emitAll cap (buf ++ encodeOpt nv) rest
    else none

/-- The fold at `src/tftp_state.rs:220-222` computing `needed_bytes`. -/
def neededBytes (opts : List (String × String)) : Nat :=
  opts.foldl (fun acc nv => acc + optLen nv) 0

/-- `Transfer::ack_options` (`src/tftp_state.rs:218-245`): emit all
options into a buffer of exactly `needed_bytes` bytes; `none` models a
panic (a failed `emit(..).unwrap()` or the failure of
`debug_assert!(written_bytes == needed_bytes)`). -/
def Transfer.ack_options (t : Transfer) : Option EtherFrame :=
  let ack_opts := t.options.to_str_str
  let needed_bytes := neededBytes ack_opts
  match emitAll needed_bytes [] ack_opts with
  | none => none
  | some buf =>
    if buf.length = needed_bytes then
      some (tftp_to_ether_unicast (.OptionAck buf) t.connection)
    else
      none

/-- A DHCP option as yielded by the `dhcp.options()` walk: a kind byte and
a payload. -/
structure DhcpOption where
  kind : Nat
  data : List Nat
deriving Repr, DecidableEq

/-- The parsed view of a DHCP packet that `pxe_discover` consumes: the
BOOTP opcode, transaction id, secs, client hardware address bytes
(`chaddr`) and the option list. -/
structure DhcpPacket where
  opcode : Nat
  transaction_id : Nat
  secs : Nat
  chaddr : List Nat
  options : List DhcpOption
deriving Repr, DecidableEq

inductive FirmwareType where
  | Unknown
  | IPxe
deriving Repr, DecidableEq

/-- Modelled from the spec: the hardware-type byte of a client identifier
(`dhcp/options.rs`, not among the given sources); 1 is Ethernet. -/
inductive HardwareType where
  | Ethernet
  | Other (code : Nat)
deriving Repr, DecidableEq

def HardwareType.ofNat (n : Nat) : HardwareType :=
  if n = 1 then .Ethernet else .Other n

structure ClientIdentifier where
  hardware_type : HardwareType
  hardware_address : List Nat
deriving Repr, DecidableEq

/-- Modelled from the spec: `ClientIdentifier::try_from` — one hardware
type byte followed by the address (section 4.A); an empty payload cannot
yield the type byte and is malformed. -/
def ClientIdentifier.tryFrom (data : List Nat) : Except Error ClientIdentifier :=
  match data with
  | [] => .error (.Malformed "Invalid client identifier: empty")
  | t :: addr => .ok ⟨HardwareType.ofNat t, addr⟩

structure ClientArchType where
  tag : Nat
deriving Repr, DecidableEq

/-- Modelled from the spec: `ClientArchType::try_from` decodes a
big-endian 16-bit tag from a 2-byte payload; unknown tags are malformed
(section 4.A).  The known tags are the RFC 4578 architecture tags 0-9
(0 = X86Bios, 6 = X86Uefi, 7 = X64Uefi, ...). -/
def ClientArchType.tryFrom (data : List Nat) : Except Error ClientArchType :=
  match data with
  | [hi, lo] =>
    if hi * 256 + lo ≤ 9 then .ok ⟨hi * 256 + lo⟩
    else .error (.Malformed "Unknown client arch tag")
  | _ => .error (.Malformed "Invalid client arch length")

structure NetworkInterfaceVersion where
  interface_type : Nat
  major : Nat
  minor : Nat
deriving Repr, DecidableEq

/-- Modelled from the spec: `NetworkInterfaceVersion::try_from` — exactly
3 bytes (type, major, minor); a length mismatch is malformed. -/
def NetworkInterfaceVersion.tryFrom (data : List Nat) : Except Error NetworkInterfaceVersion :=
  match data with
  | [a, b, c] => .ok ⟨a, b, c⟩
  | _ => .error (.Malformed "Invalid network interface version")

structure PxeUuid where
  type_byte : Nat
  uuid : List Nat
deriving Repr, DecidableEq

/-- Modelled from the spec: `PxeUuid::try_from` — exactly 17 bytes, the
first being the UUID type. -/
def PxeUuid.tryFrom (data : List Nat) : Except Error PxeUuid :=
  if data.length = 17 then .ok ⟨data.headD 0, data.tail⟩
  else .error (.Malformed "Invalid uuid length")

structure VendorClassIdentifier where
  data : List Nat
deriving Repr, DecidableEq

/-- Modelled from the spec: `VendorClassIdentifier::try_from` keeps the
payload as the identifier string (its bytes here). -/
def VendorClassIdentifier.tryFrom (data : List Nat) : Except Error VendorClassIdentifier :=
  .ok ⟨data⟩

/-- `DhcpMessageType::try_from` of the smoltcp wire layer: message type
codes 1-8 are known, anything else is rejected (mapped to `Malformed` at
`src/dhcp/parse.rs:50`).  The message type is kept as its code. -/
def tryMsgType (b : Nat) : Except Error Nat :=
  if 1 ≤ b ∧ b ≤ 8 then .ok b
  else .error (.Malformed "Invalid message type")

/-- The option kinds of `SubsetDhcpOption` (section 4.A): MessageType 53,
ParameterRequestList 55, MaximumMessageSize 57, VendorClassIdentifier 60,
ClientIdentifier 61, UserClassInformation 77, ClientSystemArchitecture 93,
ClientNetworkInterfaceIdentifier 94, ClientUuid 97. -/
def recognizedKind (k : Nat) : Bool :=
  k = 53 || k = 55 || k = 57 || k = 60 || k = 61 || k = 77 || k = 93 || k = 94 || k = 97

/-- The UTF-8 bytes of the exact string "iPXE".  UTF-8 decoding is
injective, so `str::from_utf8(data) == Ok("iPXE")` holds iff `data` is
exactly these bytes. -/
def iPXEBytes : List Nat := [0x69, 0x50, 0x58, 0x45]

/-- The mutable locals of `pxe_discover` during the option walk. -/
structure WalkState where
  client_arch : Option ClientArchType
  vendor_id : Option VendorClassIdentifier
  msg_type : Option Nat
  network_interface_version : Option NetworkInterfaceVersion
  client_uuid : Option PxeUuid
  client_identifier : Option ClientIdentifier
  firmware_type : FirmwareType
deriving Repr, DecidableEq

def initWalkState : WalkState :=
  ⟨none, none, none, none, none, none, .Unknown⟩

/-- One iteration of the option walk of `pxe_discover`
(`src/dhcp/parse.rs:44-100`).  `none` models the panic of
`option.data[0]` on an empty MessageType payload; options whose kind is
not in `SubsetDhcpOption` are skipped, and so are ParameterRequestList,
MaximumMessageSize and the unhandled-option arm. -/
def processOption (st : WalkState) (o : DhcpOption) : Option (Except Error WalkState) :=
  if recognizedKind o.kind then
    if o.kind = 53 then
      match o.data with
      | [] => none
      | b :: _ =>
        match tryMsgType b with
        | .error e => some (.error e)
        | .ok m => some (.ok { st with msg_type := some m })
    else if o.kind = 93 then
      match ClientArchType.tryFrom o.data with
      | .error e => some (.error e)
      | .ok v => some (.ok { st with client_arch := some v })
    else if o.kind = 94 then
      match NetworkInterfaceVersion.tryFrom o.data with
      | .error e => some (.error e)
      | .ok v => some (.ok { st with network_interface_version := some v })
    else if o.kind = 97 then
      match PxeUuid.tryFrom o.data with
      | .error e => some (.error e)
      | .ok v => some (.ok { st with client_uuid := some v })
    else if o.kind = 60 then
      match VendorClassIdentifier.tryFrom o.data with
      | .error e => some (.error e)
      | .ok v => some (.ok { st with vendor_id := some v })
    else if o.kind = 61 then
      match ClientIdentifier.tryFrom o.data with
      | .error e => some (.error e)
      | .ok v => some (.ok { st with client_identifier := some v })
    else if o.kind = 77 then
      some (.ok (if o.data = iPXEBytes then { st with firmware_type := .IPxe } else st))
    else
      some (.ok st)
  else
    some (.ok st)

/-- The full option walk: the `for` loop of `pxe_discover`, with early
return on error and panic propagation. -/
def walk (st : WalkState) : List DhcpOption → Option (Except Error WalkState)
  | [] => some (.ok st)
  | o :: rest =>
    match processOption st o with
    | none => none
    | some (.error e) => some (.error e)
    | some (.ok st1) => walk st1 rest

structure PxeClientInfo where
  client_arch : ClientArchType
  vendor_id : Option VendorClassIdentifier
  client_uuid : PxeUuid
  msg_type : Nat
  network_interface_version : NetworkInterfaceVersion
  client_identifier : ClientIdentifier
  transaction_id : Nat
  secs : Nat
  firmware_type : FirmwareType
deriving Repr, DecidableEq

/-- The final struct literal of `pxe_discover`
(`src/dhcp/parse.rs:111-123`): the `ok_or` chains are evaluated in field
order (client_arch, client_identifier, client_uuid, msg_type,
network_interface_version), so the first absent one determines the
error. -/
def buildInfo (p : DhcpPacket) (st : WalkState) : Except Error PxeClientInfo :=
  match st.client_arch with
  | none => .error (.MissingDhcpOption "Client Architecture")
  | some arch =>
    match st.client_identifier with
    | none => .error (.MissingDhcpOption "Client Identifier")
    | some cid =>
      match st.client_uuid with
      | none => .error (.MissingDhcpOption "Client UUID")
      | some uuid =>
        match st.msg_type with
        | none => .error (.MissingDhcpOption "Message Type")
        | some mt =>
          match st.network_interface_version with
          | none => .error (.MissingDhcpOption "Network Interface Version")
          | some niv =>
            .ok ⟨arch, st.vendor_id, uuid, mt, niv, cid, p.transaction_id, p.secs,
              st.firmware_type⟩

/-- The post-walk fixup of `pxe_discover` (`src/dhcp/parse.rs:102-109`):
if the client identifier option was not present, synthesize one from the
packet's `chaddr` with hardware type Ethernet. -/
def synthesize (p : DhcpPacket) (st : WalkState) : WalkState :=
  if st.client_identifier.isNone then
    { st with client_identifier := some ⟨.Ethernet, p.chaddr⟩ }
  else st

/-- `pxe_discover` (`src/dhcp/parse.rs:31-124`).  `DhcpMessageType::
Request.opcode()` is the BOOTP BOOTREQUEST opcode 1. -/
def pxe_discover (p : DhcpPacket) : Option (Except Error PxeClientInfo) :=
  if p.opcode ≠ 1 then
    some (.error (.Ignore "Not a dhcp request"))
  else
    match walk initWalkState p.options with
    | none => none
    | some (.error e) => some (.error e)
    | some (.ok st) => some (buildInfo p (synthesize p st))

/-- Does the packet carry an option of the given kind? -/
def hasKind (p : DhcpPacket) (k : Nat) : Bool :=
  p.options.any (fun o => o.kind == k)

/-- The parsed view of the `PXE_DISCOVER` test fixture of
`src/dhcp/parse.rs` (opcode 1, transaction id 0x4331af13, secs 4, chaddr
52:54:00:12:34:56), with its DHCP options decoded from the fixture
bytes. -/
def pxeDiscoverPacket : DhcpPacket :=
  { opcode := 1
    transaction_id := 0x4331af13
    secs := 4
    chaddr := [0x52, 0x54, 0x00, 0x12, 0x34, 0x56]
    options :=
      [⟨53, [1]⟩,
       ⟨57, [0x05, 0xc0]⟩,
       ⟨93, [0x00, 0x00]⟩,
       ⟨94, [0x01, 0x02, 0x01]⟩,
       ⟨60, [0x50, 0x58, 0x45, 0x43, 0x6c, 0x69, 0x65, 0x6e, 0x74, 0x3a, 0x41,
             0x72, 0x63, 0x68, 0x3a, 0x30, 0x30, 0x30, 0x30, 0x30, 0x3a, 0x55,
             0x4e, 0x44, 0x49, 0x3a, 0x30, 0x30, 0x32, 0x30, 0x30, 0x31]⟩,
       ⟨77, [0x69, 0x50, 0x58, 0x45]⟩,
       ⟨55, [0x01, 0x03, 0x06, 0x07, 0x0c, 0x0f, 0x11, 0x1a, 0x2b, 0x3c, 0x42,
             0x43, 0x77, 0x80, 0x81, 0x82, 0x83, 0x84, 0x85, 0x86, 0x87, 0xaf,
             0xcb]⟩,
       ⟨175, [0xb1, 0x05, 0x01, 0x80, 0x86, 0x10, 0x0e, 0xeb, 0x03, 0x01, 0x00,
              0x00, 0x17, 0x01, 0x01, 0x22, 0x01, 0x01, 0x13, 0x01, 0x01, 0x14,
              0x01, 0x01, 0x11, 0x01, 0x01, 0x27, 0x01, 0x01, 0x19, 0x01, 0x01,
              0x19, 0x01, 0x01, 0x10, 0x01, 0x02, 0x21, 0x01, 0x01, 0x15, 0x01,
              0x01, 0x18, 0x01, 0x01, 0x1b, 0x01, 0x01, 0x12, 0x01, 0x01]⟩,
       ⟨61, [0x01, 0x52, 0x54, 0x00, 0x12, 0x34, 0x56]⟩,
       ⟨97, [0x00, 0x00, 0x00, 0x00, 0x00, 0x00, 0x00, 0x00, 0x00, 0x00, 0x00,
             0x00, 0x00, 0x00, 0x00, 0x00, 0x00]⟩] }

/-- The parsed view of the `PXE_OFFER` test fixture of
`src/dhcp/parse.rs` (opcode 2 — a BOOTREPLY, not a request). -/
def pxeOfferPacket : DhcpPacket :=
  { opcode := 2
    transaction_id := 0x4331af13
    secs := 4
    chaddr := [0x52, 0x54, 0x00, 0x12, 0x34, 0x56]
    options :=
      [⟨53, [2]⟩,
       ⟨54, [0xc0, 0xa8, 0xb2, 0x01]⟩,
       ⟨51, [0x00, 0x0d, 0x2f, 0x00]⟩,
       ⟨58, [0x00, 0x06, 0x97, 0x80]⟩,
       ⟨59, [0x00, 0x0b, 0x89, 0x20]⟩,
       ⟨1, [0xff, 0xff, 0xff, 0x00]⟩,
       ⟨3, [0xc0, 0xa8, 0xb2, 0x01]⟩,
       ⟨6, [0xc0, 0xa8, 0xb2, 0x01]⟩,
       ⟨15, [0x66, 0x72, 0x69, 0x74, 0x7a, 0x2e, 0x62, 0x6f, 0x78]⟩] }

/-- The `PxeClientInfo` that `pxe_discover` extracts from the Discover
fixture (checked by `test_pxe_request` in the source). -/
def discoverInfo : PxeClientInfo :=
  { client_arch := ⟨0⟩
    vendor_id := some ⟨[0x50, 0x58, 0x45, 0x43, 0x6c, 0x69, 0x65, 0x6e, 0x74,
      0x3a, 0x41, 0x72, 0x63, 0x68, 0x3a, 0x30, 0x30, 0x30, 0x30, 0x30, 0x3a,
      0x55, 0x4e, 0x44, 0x49, 0x3a, 0x30, 0x30, 0x32, 0x30, 0x30, 0x31]⟩
    client_uuid := ⟨0, [0x00, 0x00, 0x00, 0x00, 0x00, 0x00, 0x00, 0x00, 0x00,
      0x00, 0x00, 0x00, 0x00, 0x00, 0x00, 0x00]⟩
    msg_type := 1
    network_interface_version := ⟨1, 2, 1⟩
    client_identifier := ⟨.Ethernet, [0x52, 0x54, 0x00, 0x12, 0x34, 0x56]⟩
    transaction_id := 0x4331af13
    secs := 4
    firmware_type := .IPxe }

/-- A transfer that has already sent block 65535, with a negotiated block
size of 512 and one byte left in the file. -/
def wrapTransfer : Transfer :=
  ⟨[7], ⟨10, 11, 12, 13, 69, 5002⟩, false, 65535, ⟨some 512, none⟩, 0, 0⟩

/-- A second transfer at block 65535 (block size 8, one byte left). -/
def wrapTransfer2 : Transfer :=
  ⟨[9], ⟨10, 11, 12, 13, 69, 5004⟩, false, 65535, ⟨some 8, none⟩, 0, 0⟩

/-- A fresh transfer used to exhibit the ack-mismatch error. -/
def mismatchTransfer : Transfer :=
  Transfer.new [1, 2, 3] ⟨10, 11, 12, 13, 69, 5003⟩ false 0

/-- A small mid-transfer state with block size 2 and three bytes left. -/
def smallTransfer : Transfer :=
  ⟨[1, 2, 3], ⟨10, 11, 12, 13, 69, 5005⟩, false, 4, ⟨some 2, none⟩, 0, 0⟩

/-- A minimal BOOTREQUEST packet carrying only a ClientSystemArchitecture
option, used to exercise the missing-option errors. -/
def tinyPacket : DhcpPacket :=
  ⟨1, 7, 0, [1, 2, 3, 4, 5, 6], [⟨93, [0, 0]⟩]⟩

/-- The walk state the option walk reaches on `tinyPacket`. -/
def tinyWalkState : WalkState :=
  { initWalkState with client_arch := some ⟨0⟩ }

/-- Claim C1 as stated is false: on a `Transfer` fresh from
`Transfer::new` (whose options map has no `Blksize` key) and a matching
ack, `send_data` does not return a DATA packet — it panics at the
`unwrap` of the `Blksize` lookup (`src/tftp_state.rs:189`), modelled as
`none`. -/
theorem send_data_no_blksize_counterexample :
    Transfer.send_data (Transfer.new [7, 8] ⟨1, 2, 3, 4, 69, 5000⟩ false 0) 0 100 = none := by
  rfl

/-- Claim C1, amended: a `Transfer` produced by `Transfer::new` has no
`Blksize` option, and whenever the `Blksize` option is absent a call to
`send_data` with a matching ack block number panics (the 512-byte default
is not applied inside `send_data`; the engine must insert the option
before data flows). -/
theorem send_data_no_blksize_panics :
    (∀ (hd : List Nat) (c : TftpConnection) (w : Bool) (now : Nat),
      (Transfer.new hd c w now).options.has .Blksize = false) ∧
    (∀ (t : Transfer) (a now : Nat),
      t.options.has .Blksize = false → a = t.block_num →
      t.send_data a now = none) := by
  constructor
  · intro hd c w now
    rfl
  · intro t a now hb hack
    have hnone : t.options.get .Blksize = none := by
      unfold TftpOptions.has at hb
      exact Option.not_isSome_iff_eq_none.mp (by simp [hb])
    unfold Transfer.send_data
    rw [if_neg (by simp [hack])]
    simp [Transfer.reset_timeout, hnone]

/-- Witness for the amended claim C1 at a concrete fresh transfer. -/
theorem send_data_no_blksize_panics_witness :
    (Transfer.new [7] ⟨1, 2, 3, 4, 69, 5001⟩ false 3).options.has .Blksize = false ∧
    Transfer.send_data (Transfer.new [7] ⟨1, 2, 3, 4, 69, 5001⟩ false 3) 0 9 = none :=
  ⟨by decide,
   send_data_no_blksize_panics.2 (Transfer.new [7] ⟨1, 2, 3, 4, 69, 5001⟩ false 3) 0 9
     (by decide) (by decide)⟩

/-- Claim C2: at the failing input — a transfer whose `block_num` is
65535, a matching ack, and a non-empty read — the emitted DATA packet
carries block number 0, not 1: the u16 counter wraps to 0 (and the
unchecked `+ 1` would panic in a debug build), contradicting the
spec's wrap-to-1 requirement. -/
theorem send_data_wraparound_to_zero :
    Transfer.send_data wrapTransfer 65535 0 =
      some (Except.ok ⟨TftpRepr.Data 0 [7], ⟨10, 11, 12, 13, 69, 5002⟩⟩,
        { wrapTransfer with handle := [], block_num := 0, timeout := 200 }) ∧
    TftpRepr.Data 0 [7] ≠ TftpRepr.Data 1 [7] := by
  constructor
  · rfl
  · decide

/-- Claim C3: on any ack block number different from the transfer's
current `block_num`, `send_data` returns a `Tftp` error whose message
reports the received and the expected block numbers, and the transfer is
returned completely unchanged (no block advance, no handle consumption,
no timeout reset). -/
theorem send_data_ack_mismatch_error (t : Transfer) (a now : Nat)
    (hne : a ≠ t.block_num) :
    t.send_data a now =
      some (Except.error (Error.Tftp (ackMismatchMsg a t.block_num)), t) := by
  unfold Transfer.send_data
  rw [if_pos hne]

/-- Witness for claim C3 at a concrete transfer and mismatched ack. -/
theorem send_data_ack_mismatch_error_witness :
    (5 : Nat) ≠ mismatchTransfer.block_num ∧
    Transfer.send_data mismatchTransfer 5 11 =
      some (Except.error (Error.Tftp (ackMismatchMsg 5 mismatchTransfer.block_num)),
        mismatchTransfer) :=
  ⟨by decide, send_data_ack_mismatch_error mismatchTransfer 5 11 (by decide)⟩

/-- Claim C4 as stated is false at `block_num = 65535`: the emitted DATA
block number is `(65535 + 1) % 65536 = 0` and the stored `block_num`
becomes 0, which is not an increment by exactly one. -/
theorem block_num_increment_counterexample :
    Transfer.send_data wrapTransfer2 65535 3 =
      some (Except.ok ⟨TftpRepr.Data ((65535 + 1) % 65536) [9], ⟨10, 11, 12, 13, 69, 5004⟩⟩,
        { wrapTransfer2 with
          handle := []
          block_num := (65535 + 1) % 65536
          timeout := 203 }) ∧
    (65535 + 1) % 65536 ≠ 65535 + 1 := by
  constructor
  · rfl
  · decide

/-- Claim C4, amended: `Transfer::new` initializes `block_num` to 0, and
`send_data` on a matching ack with a non-empty read emits a DATA packet
numbered `(block_num + 1) % 2 ^ 16` and stores that same value — an
increment by exactly one whenever `block_num < 65535`. -/
theorem block_num_invariant_amended :
    (∀ (hd : List Nat) (c : TftpConnection) (w : Bool) (now : Nat),
      (Transfer.new hd c w now).block_num = 0) ∧
    (∀ (t : Transfer) (now bs : Nat),
      t.options.get .Blksize = some bs → 0 < bs → t.handle ≠ [] →
      t.send_data t.block_num now =
        some (Except.ok ⟨TftpRepr.Data ((t.block_num + 1) % 65536) (t.handle.take bs),
            t.connection⟩,
          { t with
            handle := t.handle.drop bs
            timeout := now + 200
            block_num := (t.block_num + 1) % 65536 }) ∧
      (t.block_num < 65535 → (t.block_num + 1) % 65536 = t.block_num + 1)) := by
  constructor
  · intro hd c w now
    rfl
  · intro t now bs hbs hpos hne
    refine ⟨?_, fun hlt => by omega⟩
    have hlen : (t.handle.take bs).length ≠ 0 := by
      rw [List.length_take]
      rcases Nat.eq_zero_or_pos t.handle.length with h0 | h0
      · exact absurd (List.length_eq_zero.mp h0) hne
      · omega
    unfold Transfer.send_data
    rw [if_neg (by simp)]
    simp only [Transfer.reset_timeout]
    rw [show ({ t with timeout := now + 200 } : Transfer).options.get .Blksize =
      some bs from hbs]
    simp [hlen, tftp_to_ether_unicast]
    exact ⟨by omega, hne⟩

/-- Witness for the amended claim C4 at a concrete mid-transfer state. -/
theorem block_num_invariant_amended_witness :
    smallTransfer.options.get .Blksize = some 2 ∧ (0 : Nat) < 2 ∧
    smallTransfer.handle ≠ [] ∧
    Transfer.send_data smallTransfer smallTransfer.block_num 7 =
      some (Except.ok ⟨TftpRepr.Data ((smallTransfer.block_num + 1) % 65536)
          (smallTransfer.handle.take 2), smallTransfer.connection⟩,
        { smallTransfer with
          handle := smallTransfer.handle.drop 2
          timeout := 7 + 200
          block_num := (smallTransfer.block_num + 1) % 65536 }) :=
  ⟨by decide, by decide, by decide,
   (block_num_invariant_amended.2 smallTransfer 7 2 (by decide) (by decide) (by decide)).1⟩

lemma strBytes_length (s : String) : (strBytes s).length = s.length := by
  simp only [strBytes, List.length_map]
  rfl

lemma encodeOpt_length (nv : String × String) : (encodeOpt nv).length = optLen nv := by
  simp only [encodeOpt, optLen, List.length_append, strBytes_length, List.length_cons,
    List.length_nil]
  omega

lemma emitAll_complete (opts : List (String × String)) :
    ∀ (cap : Nat) (buf : List Nat), buf.length + (opts.map optLen).sum ≤ cap →
      emitAll cap buf opts = some (buf ++ (opts.map encodeOpt).flatten) := by
  induction opts with
  | nil =>
    intro cap buf _
    simp [emitAll]
  | cons nv rest ih =>
    intro cap buf h
    simp only [List.map_cons, List.sum_cons] at h
    have hfit : buf.length + optLen nv ≤ cap := by omega
    rw [emitAll, if_pos hfit, ih cap (buf ++ encodeOpt nv)
      (by rw [List.length_append, encodeOpt_length]; omega)]
    simp

lemma neededBytes_eq_sum (opts : List (String × String)) :
    neededBytes opts = (opts.map optLen).sum := by
  suffices h : ∀ n, opts.foldl (fun acc nv => acc + optLen nv) n = n + (opts.map optLen).sum by
    simpa [neededBytes] using h 0
  induction opts with
  | nil => intro n; simp
  | cons nv rest ih =>
    intro n
    simp only [List.foldl_cons, List.map_cons, List.sum_cons, ih]
    omega

/-- Claim C9: for every options map, the TFTP options writer emits exactly
the pre-computed `needed_bytes` bytes, so the
`debug_assert!(written_bytes == needed_bytes)` of `Transfer::ack_options`
holds and an OACK packet is returned without error (and without panic). -/
theorem ack_options_written_eq_needed (t : Transfer) :
    t.ack_options =
      some ⟨TftpRepr.OptionAck ((t.options.to_str_str.map encodeOpt).flatten), t.connection⟩ ∧
    ((t.options.to_str_str.map encodeOpt).flatten).length = neededBytes t.options.to_str_str := by
  have hjoin : ((t.options.to_str_str.map encodeOpt).flatten).length =
      neededBytes t.options.to_str_str := by
    rw [List.length_flatten, neededBytes_eq_sum, List.map_map]
    congr 1
    exact List.map_congr_left fun nv _ => encodeOpt_length nv
  refine ⟨?_, hjoin⟩
  have he := emitAll_complete t.options.to_str_str (neededBytes t.options.to_str_str) []
    (by rw [neededBytes_eq_sum]; simp)
  simp only [List.nil_append] at he
  simp [Transfer.ack_options, he, hjoin, tftp_to_ether_unicast]

lemma tryMsgType_error {b : Nat} {e : Error} (h : tryMsgType b = .error e) :
    ∃ s, e = .Malformed s := by
  unfold tryMsgType at h
  split at h <;> cases h
  exact ⟨_, rfl⟩

lemma clientArch_tryFrom_error {d : List Nat} {e : Error}
    (h : ClientArchType.tryFrom d = .error e) : ∃ s, e = .Malformed s := by
  unfold ClientArchType.tryFrom at h
  iterate 4 (all_goals (try split at h))
  all_goals cases h
  all_goals exact ⟨_, rfl⟩

lemma niv_tryFrom_error {d : List Nat} {e : Error}
    (h : NetworkInterfaceVersion.tryFrom d = .error e) : ∃ s, e = .Malformed s := by
  unfold NetworkInterfaceVersion.tryFrom at h
  iterate 4 (all_goals (try split at h))
  all_goals cases h
  all_goals exact ⟨_, rfl⟩

lemma uuid_tryFrom_error {d : List Nat} {e : Error}
    (h : PxeUuid.tryFrom d = .error e) : ∃ s, e = .Malformed s := by
  unfold PxeUuid.tryFrom at h
  split at h <;> cases h
  exact ⟨_, rfl⟩

lemma vendor_tryFrom_error {d : List Nat} {e : Error}
    (h : VendorClassIdentifier.tryFrom d = .error e) : ∃ s, e = .Malformed s := by
  cases h

lemma cid_tryFrom_error {d : List Nat} {e : Error}
    (h : ClientIdentifier.tryFrom d = .error e) : ∃ s, e = .Malformed s := by
  unfold ClientIdentifier.tryFrom at h
  split at h <;> cases h
  exact ⟨_, rfl⟩

lemma processOption_error_malformed {st : WalkState} {o : DhcpOption} {e : Error}
    (h : processOption st o = some (.error e)) : ∃ s, e = .Malformed s := by
  unfold processOption at h
  iterate 12 (all_goals (try split at h))
  all_goals cases h
  all_goals first
    | exact tryMsgType_error (by assumption)
    | exact clientArch_tryFrom_error (by assumption)
    | exact niv_tryFrom_error (by assumption)
    | exact uuid_tryFrom_error (by assumption)
    | exact vendor_tryFrom_error (by assumption)
    | exact cid_tryFrom_error (by assumption)

lemma walk_error_malformed {opts : List DhcpOption} :
    ∀ {st : WalkState} {e : Error}, walk st opts = some (.error e) →
      ∃ s, e = .Malformed s := by
  induction opts with
  | nil => intro st e h; cases h
  | cons o rest ih =>
    intro st e h
    unfold walk at h
    cases hpo : processOption st o with
    | none => rw [hpo] at h; cases h
    | some r =>
      rw [hpo] at h
      cases r with
      | error e1 => cases h; exact processOption_error_malformed hpo
      | ok st1 => exact ih h

lemma processOption_ok_fields {st : WalkState} {o : DhcpOption} {st1 : WalkState}
    (h : processOption st o = some (.ok st1)) :
    st1.client_arch.isSome = (st.client_arch.isSome || o.kind == 93) ∧
    st1.client_uuid.isSome = (st.client_uuid.isSome || o.kind == 97) ∧
    st1.msg_type.isSome = (st.msg_type.isSome || o.kind == 53) ∧
    st1.network_interface_version.isSome =
      (st.network_interface_version.isSome || o.kind == 94) ∧
    (o.kind ≠ 61 → st1.client_identifier = st.client_identifier) ∧
    (o.kind = 61 → ∃ v, ClientIdentifier.tryFrom o.data = .ok v ∧
      st1.client_identifier = some v) ∧
    (st1.firmware_type = .IPxe ↔ st.firmware_type = .IPxe ∨
      (o.kind = 77 ∧ o.data = iPXEBytes)) := by
  unfold processOption at h
  iterate 12 (all_goals (try split at h))
  all_goals cases h
  all_goals simp_all [recognizedKind]

lemma walk_ok_fields {opts : List DhcpOption} :
    ∀ {st st' : WalkState}, walk st opts = some (.ok st') →
    st'.client_arch.isSome = (st.client_arch.isSome || opts.any (fun o => o.kind == 93)) ∧
    st'.client_uuid.isSome = (st.client_uuid.isSome || opts.any (fun o => o.kind == 97)) ∧
    st'.msg_type.isSome = (st.msg_type.isSome || opts.any (fun o => o.kind == 53)) ∧
    st'.network_interface_version.isSome =
      (st.network_interface_version.isSome || opts.any (fun o => o.kind == 94)) ∧
    ((∀ o ∈ opts, o.kind ≠ 61) → st'.client_identifier = st.client_identifier) ∧
    ((∃ o ∈ opts, o.kind = 61) → ∃ o ∈ opts, o.kind = 61 ∧
      ∃ v, ClientIdentifier.tryFrom o.data = .ok v ∧ st'.client_identifier = some v) ∧
    (st'.firmware_type = .IPxe ↔ st.firmware_type = .IPxe ∨
      ∃ o ∈ opts, o.kind = 77 ∧ o.data = iPXEBytes) := by
  induction opts with
  | nil =>
    intro st st' h
    cases h
    simp
  | cons o rest ih =>
    intro st st' h
    unfold walk at h
    cases hpo : processOption st o with
    | none => rw [hpo] at h; cases h
    | some r =>
      rw [hpo] at h
      cases r with
      | error e => cases h
      | ok st1 =>
        obtain ⟨ha, hu, hm, hn, hcid_keep, hcid_set, hfw⟩ := processOption_ok_fields hpo
        obtain ⟨ia, iu, im, iin, icid_keep, icid_set, ifw⟩ := ih h
        refine ⟨?_, ?_, ?_, ?_, ?_, ?_, ?_⟩
        · simp [List.any_cons, ia, ha, Bool.or_assoc]
        · simp [List.any_cons, iu, hu, Bool.or_assoc]
        · simp [List.any_cons, im, hm, Bool.or_assoc]
        · simp [List.any_cons, iin, hn, Bool.or_assoc]
        · intro hall
          rw [icid_keep fun x hx => hall x (List.mem_cons_of_mem o hx),
            hcid_keep (hall o (List.mem_cons_self o rest))]
        · intro hex
          by_cases hrest : ∃ x ∈ rest, x.kind = 61
          · obtain ⟨x, hx, hk, v, hv, hcv⟩ := icid_set hrest
            exact ⟨x, List.mem_cons_of_mem o hx, hk, v, hv, hcv⟩
          · have hk : o.kind = 61 := by
              rcases hex with ⟨x, hx, hxk⟩
              rcases List.mem_cons.mp hx with rfl | hx'
              · exact hxk
              · exact absurd ⟨x, hx', hxk⟩ hrest
            obtain ⟨v, hv, hcv⟩ := hcid_set hk
            refine ⟨o, (List.mem_cons_self o rest), hk, v, hv, ?_⟩
            rw [icid_keep fun x hx hxk => hrest ⟨x, hx, hxk⟩, hcv]
        · rw [ifw, hfw]
          constructor
          · rintro ((hs | hko) | hr)
            · exact Or.inl hs
            · exact Or.inr ⟨o, (List.mem_cons_self o rest), hko⟩
            · obtain ⟨x, hx, hxp⟩ := hr
              exact Or.inr ⟨x, List.mem_cons_of_mem o hx, hxp⟩
          · rintro (hs | ⟨x, hx, hxp⟩)
            · exact Or.inl (Or.inl hs)
            · rcases List.mem_cons.mp hx with rfl | hx'
              · exact Or.inl (Or.inr hxp)
              · exact Or.inr ⟨x, hx', hxp⟩

lemma synthesize_arch (p : DhcpPacket) (st : WalkState) :
    (synthesize p st).client_arch = st.client_arch := by
  unfold synthesize; split <;> rfl

lemma synthesize_uuid (p : DhcpPacket) (st : WalkState) :
    (synthesize p st).client_uuid = st.client_uuid := by
  unfold synthesize; split <;> rfl

lemma synthesize_msg (p : DhcpPacket) (st : WalkState) :
    (synthesize p st).msg_type = st.msg_type := by
  unfold synthesize; split <;> rfl

lemma synthesize_niv (p : DhcpPacket) (st : WalkState) :
    (synthesize p st).network_interface_version = st.network_interface_version := by
  unfold synthesize; split <;> rfl

lemma synthesize_firmware (p : DhcpPacket) (st : WalkState) :
    (synthesize p st).firmware_type = st.firmware_type := by
  unfold synthesize; split <;> rfl

lemma synthesize_cid_isSome (p : DhcpPacket) (st : WalkState) :
    (synthesize p st).client_identifier.isSome := by
  unfold synthesize
  cases h : st.client_identifier <;> simp [h]

lemma synthesize_cid_none {st : WalkState} (p : DhcpPacket)
    (h : st.client_identifier = none) :
    (synthesize p st).client_identifier = some ⟨.Ethernet, p.chaddr⟩ := by
  simp [synthesize, h]

lemma synthesize_cid_some {st : WalkState} {c : ClientIdentifier} (p : DhcpPacket)
    (h : st.client_identifier = some c) :
    (synthesize p st).client_identifier = some c := by
  simp [synthesize, h]

lemma buildInfo_ok_fields {p : DhcpPacket} {st : WalkState} {info : PxeClientInfo}
    (h : buildInfo p st = .ok info) :
    info.transaction_id = p.transaction_id ∧ info.secs = p.secs ∧
    st.client_identifier = some info.client_identifier ∧
    st.firmware_type = info.firmware_type ∧
    st.client_arch = some info.client_arch ∧
    st.client_uuid = some info.client_uuid ∧
    st.msg_type = some info.msg_type ∧
    st.network_interface_version = some info.network_interface_version := by
  unfold buildInfo at h
  iterate 6 (all_goals (try split at h))
  all_goals cases h
  simp_all

lemma buildInfo_arch_none {p : DhcpPacket} {st : WalkState}
    (h : st.client_arch = none) :
    buildInfo p st = .error (.MissingDhcpOption "Client Architecture") := by
  simp [buildInfo, h]

lemma buildInfo_uuid_none {p : DhcpPacket} {st : WalkState} {a : ClientArchType}
    {c : ClientIdentifier} (ha : st.client_arch = some a)
    (hc : st.client_identifier = some c) (h : st.client_uuid = none) :
    buildInfo p st = .error (.MissingDhcpOption "Client UUID") := by
  simp [buildInfo, ha, hc, h]

lemma buildInfo_msg_none {p : DhcpPacket} {st : WalkState} {a : ClientArchType}
    {c : ClientIdentifier} {u : PxeUuid} (ha : st.client_arch = some a)
    (hc : st.client_identifier = some c) (hu : st.client_uuid = some u)
    (h : st.msg_type = none) :
    buildInfo p st = .error (.MissingDhcpOption "Message Type") := by
  simp [buildInfo, ha, hc, hu, h]

lemma buildInfo_niv_none {p : DhcpPacket} {st : WalkState} {a : ClientArchType}
    {c : ClientIdentifier} {u : PxeUuid} {m : Nat} (ha : st.client_arch = some a)
    (hc : st.client_identifier = some c) (hu : st.client_uuid = some u)
    (hm : st.msg_type = some m) (h : st.network_interface_version = none) :
    buildInfo p st = .error (.MissingDhcpOption "Network Interface Version") := by
  simp [buildInfo, ha, hc, hu, hm, h]

lemma buildInfo_ok_of {p : DhcpPacket} {st : WalkState} {a : ClientArchType}
    {c : ClientIdentifier} {u : PxeUuid} {m : Nat} {n : NetworkInterfaceVersion}
    (ha : st.client_arch = some a) (hc : st.client_identifier = some c)
    (hu : st.client_uuid = some u) (hm : st.msg_type = some m)
    (hn : st.network_interface_version = some n) :
    buildInfo p st =
      .ok ⟨a, st.vendor_id, u, m, n, c, p.transaction_id, p.secs, st.firmware_type⟩ := by
  simp [buildInfo, ha, hc, hu, hm, hn]

lemma buildInfo_error_shape {p : DhcpPacket} {st : WalkState} {e : Error}
    (h : buildInfo p st = .error e) :
    e = .MissingDhcpOption "Client Architecture" ∨
    (st.client_identifier = none ∧ e = .MissingDhcpOption "Client Identifier") ∨
    e = .MissingDhcpOption "Client UUID" ∨
    e = .MissingDhcpOption "Message Type" ∨
    e = .MissingDhcpOption "Network Interface Version" := by
  unfold buildInfo at h
  iterate 6 (all_goals (try split at h))
  all_goals cases h
  all_goals simp_all

/-- Claim C5: for every inbound DHCP packet whose BOOTP opcode is not
BOOTREQUEST (1), `pxe_discover` returns the error
`Ignore("Not a dhcp request")` and produces no `PxeClientInfo`. -/
theorem pxe_discover_non_request_ignored (p : DhcpPacket) (h : p.opcode ≠ 1) :
    pxe_discover p = some (.error (.Ignore "Not a dhcp request")) := by
  unfold pxe_discover
  rw [if_pos h]

/-- Witness for claim C5: the DHCP Offer fixture (opcode 2) yields
`Ignore`. -/
theorem pxe_discover_non_request_ignored_witness :
    pxeOfferPacket.opcode ≠ 1 ∧
    pxe_discover pxeOfferPacket = some (.error (.Ignore "Not a dhcp request")) :=
  ⟨by decide, pxe_discover_non_request_ignored pxeOfferPacket (by decide)⟩

/-- Claim C10: `pxe_discover` never returns
`MissingDhcpOption("Client Identifier")` — the identifier is synthesized
from `chaddr` whenever the option is absent, so that error branch is
unreachable. -/
theorem pxe_discover_no_missing_client_identifier (p : DhcpPacket) :
    pxe_discover p ≠ some (.error (.MissingDhcpOption "Client Identifier")) := by
  intro hcontra
  unfold pxe_discover at hcontra
  by_cases hop : p.opcode ≠ 1
  · rw [if_pos hop] at hcontra
    simp at hcontra
  · rw [if_neg hop] at hcontra
    cases hw : walk initWalkState p.options with
    | none => rw [hw] at hcontra; cases hcontra
    | some r =>
      rw [hw] at hcontra
      cases r with
      | error e =>
        obtain ⟨s, rfl⟩ := walk_error_malformed hw
        simp at hcontra
      | ok st =>
        simp only [Option.some.injEq] at hcontra
        rcases buildInfo_error_shape hcontra with h1 | ⟨hnone, _⟩ | h3 | h4 | h5
        · exact absurd h1 (by decide)
        · have := synthesize_cid_isSome p st
          simp [hnone] at this
        · exact absurd h3 (by decide)
        · exact absurd h4 (by decide)
        · exact absurd h5 (by decide)

/-- Claim C6: whenever `pxe_discover` succeeds, the returned info carries
the packet's transaction id and secs, and its client identifier is the
packet's explicit ClientIdentifier option (61) when one is present,
otherwise the synthesized identifier (hardware type Ethernet, address =
`chaddr`). -/
theorem pxe_discover_info_fields (p : DhcpPacket) (info : PxeClientInfo)
    (h : pxe_discover p = some (.ok info)) :
    info.transaction_id = p.transaction_id ∧ info.secs = p.secs ∧
    ((∀ o ∈ p.options, o.kind ≠ 61) →
      info.client_identifier = ⟨.Ethernet, p.chaddr⟩) ∧
    ((∃ o ∈ p.options, o.kind = 61) → ∃ o ∈ p.options, o.kind = 61 ∧
      ClientIdentifier.tryFrom o.data = .ok info.client_identifier) := by
  unfold pxe_discover at h
  by_cases hop : p.opcode ≠ 1
  · rw [if_pos hop] at h
    simp at h
  · rw [if_neg hop] at h
    cases hw : walk initWalkState p.options with
    | none => rw [hw] at h; cases h
    | some r =>
      rw [hw] at h
      cases r with
      | error e => simp at h
      | ok st =>
        simp only [Option.some.injEq] at h
        obtain ⟨htx, hsecs, hcid, _, _, _, _, _⟩ := buildInfo_ok_fields h
        obtain ⟨_, _, _, _, hkeep, hset, _⟩ := walk_ok_fields hw
        refine ⟨htx, hsecs, ?_, ?_⟩
        · intro hall
          have hnone : st.client_identifier = none := by
            rw [hkeep hall]; rfl
          rw [synthesize_cid_none p hnone] at hcid
          exact (Option.some.inj hcid).symm
        · intro hex
          obtain ⟨o, ho, hk, v, hv, hcv⟩ := hset hex
          refine ⟨o, ho, hk, ?_⟩
          rw [synthesize_cid_some p hcv] at hcid
          rw [hv, Option.some.inj hcid]

/-- Witness for claim C6: the Discover fixture parses to `discoverInfo`,
whose transaction id and secs match the packet header. -/
theorem pxe_discover_info_fields_witness :
    pxe_discover pxeDiscoverPacket = some (.ok discoverInfo) ∧
    discoverInfo.transaction_id = pxeDiscoverPacket.transaction_id ∧
    discoverInfo.secs = pxeDiscoverPacket.secs :=
  ⟨by rfl,
   (pxe_discover_info_fields pxeDiscoverPacket discoverInfo (by rfl)).1,
   (pxe_discover_info_fields pxeDiscoverPacket discoverInfo (by rfl)).2.1⟩


/-- Claim C7: for every BOOTREQUEST packet whose options walk completes,
each absent required option produces its named `MissingDhcpOption` error
(in the fixed checking order client architecture, client UUID, message
type, network interface version), and the classifier succeeds precisely
when all four required options are present. -/
theorem pxe_discover_missing_options (p : DhcpPacket) (st : WalkState)
    (hop : p.opcode = 1) (hw : walk initWalkState p.options = some (.ok st)) :
    (hasKind p 93 = false →
      pxe_discover p = some (.error (.MissingDhcpOption "Client Architecture"))) ∧
    (hasKind p 93 = true → hasKind p 97 = false →
      pxe_discover p = some (.error (.MissingDhcpOption "Client UUID"))) ∧
    (hasKind p 93 = true → hasKind p 97 = true → hasKind p 53 = false →
      pxe_discover p = some (.error (.MissingDhcpOption "Message Type"))) ∧
    (hasKind p 93 = true → hasKind p 97 = true → hasKind p 53 = true →
      hasKind p 94 = false →
      pxe_discover p = some (.error (.MissingDhcpOption "Network Interface Version"))) ∧
    ((∃ info, pxe_discover p = some (.ok info)) ↔
      (hasKind p 93 = true ∧ hasKind p 97 = true ∧ hasKind p 53 = true ∧
        hasKind p 94 = true)) := by
  have hpd : pxe_discover p = some (buildInfo p (synthesize p st)) := by
    unfold pxe_discover
    rw [if_neg (by simp [hop]), hw]
  obtain ⟨ha, hu, hm, hn, _, _, _⟩ := walk_ok_fields hw
  have ha' : st.client_arch.isSome = hasKind p 93 := by
    rw [ha]; simp [initWalkState, hasKind]
  have hu' : st.client_uuid.isSome = hasKind p 97 := by
    rw [hu]; simp [initWalkState, hasKind]
  have hm' : st.msg_type.isSome = hasKind p 53 := by
    rw [hm]; simp [initWalkState, hasKind]
  have hn' : st.network_interface_version.isSome = hasKind p 94 := by
    rw [hn]; simp [initWalkState, hasKind]
  obtain ⟨c, hc⟩ := Option.isSome_iff_exists.mp (synthesize_cid_isSome p st)
  refine ⟨?_, ?_, ?_, ?_, ?_⟩
  · intro h93
    rw [hpd, buildInfo_arch_none
      (by rw [synthesize_arch]; exact Option.not_isSome_iff_eq_none.mp (by rw [ha', h93]; simp))]
  · intro h93 h97
    obtain ⟨a, hsa⟩ := Option.isSome_iff_exists.mp (ha'.trans h93 : _)
    rw [hpd, buildInfo_uuid_none (a := a) (c := c)
      (by rw [synthesize_arch]; exact hsa) hc
      (by rw [synthesize_uuid]; exact Option.not_isSome_iff_eq_none.mp (by rw [hu', h97]; simp))]
  · intro h93 h97 h53
    obtain ⟨a, hsa⟩ := Option.isSome_iff_exists.mp (ha'.trans h93 : _)
    obtain ⟨u, hsu⟩ := Option.isSome_iff_exists.mp (hu'.trans h97 : _)
    rw [hpd, buildInfo_msg_none (a := a) (c := c) (u := u)
      (by rw [synthesize_arch]; exact hsa) hc
      (by rw [synthesize_uuid]; exact hsu)
      (by rw [synthesize_msg]; exact Option.not_isSome_iff_eq_none.mp (by rw [hm', h53]; simp))]
  · intro h93 h97 h53 h94
    obtain ⟨a, hsa⟩ := Option.isSome_iff_exists.mp (ha'.trans h93 : _)
    obtain ⟨u, hsu⟩ := Option.isSome_iff_exists.mp (hu'.trans h97 : _)
    obtain ⟨m, hsm⟩ := Option.isSome_iff_exists.mp (hm'.trans h53 : _)
    rw [hpd, buildInfo_niv_none (a := a) (c := c) (u := u) (m := m)
      (by rw [synthesize_arch]; exact hsa) hc
      (by rw [synthesize_uuid]; exact hsu)
      (by rw [synthesize_msg]; exact hsm)
      (by rw [synthesize_niv]; exact Option.not_isSome_iff_eq_none.mp (by rw [hn', h94]; simp))]
  · constructor
    · rintro ⟨info, hinfo⟩
      rw [hpd] at hinfo
      obtain ⟨_, _, _, _, hia, hiu, him, hin⟩ :=
        buildInfo_ok_fields (Option.some.inj hinfo)
      rw [synthesize_arch] at hia
      rw [synthesize_uuid] at hiu
      rw [synthesize_msg] at him
      rw [synthesize_niv] at hin
      refine ⟨?_, ?_, ?_, ?_⟩
      · rw [← ha', hia]; rfl
      · rw [← hu', hiu]; rfl
      · rw [← hm', him]; rfl
      · rw [← hn', hin]; rfl
    · rintro ⟨h93, h97, h53, h94⟩
      obtain ⟨a, hsa⟩ := Option.isSome_iff_exists.mp (ha'.trans h93 : _)
      obtain ⟨u, hsu⟩ := Option.isSome_iff_exists.mp (hu'.trans h97 : _)
      obtain ⟨m, hsm⟩ := Option.isSome_iff_exists.mp (hm'.trans h53 : _)
      obtain ⟨n, hsn⟩ := Option.isSome_iff_exists.mp (hn'.trans h94 : _)
      refine ⟨⟨a, (synthesize p st).vendor_id, u, m, n, c, p.transaction_id, p.secs,
        (synthesize p st).firmware_type⟩, ?_⟩
      rw [hpd, buildInfo_ok_of (a := a) (c := c) (u := u) (m := m) (n := n)
        (by rw [synthesize_arch]; exact hsa) hc
        (by rw [synthesize_uuid]; exact hsu)
        (by rw [synthesize_msg]; exact hsm)
        (by rw [synthesize_niv]; exact hsn)]

/-- Witness for claim C7: on `tinyPacket` the walk completes with only the
architecture option set, and the classifier reports the missing client
UUID. -/
theorem pxe_discover_missing_options_witness :
    walk initWalkState tinyPacket.options = some (.ok tinyWalkState) ∧
    pxe_discover tinyPacket = some (.error (.MissingDhcpOption "Client UUID")) :=
  ⟨by rfl,
   (pxe_discover_missing_options tinyPacket tinyWalkState (by rfl) (by rfl)).2.1
     (by rfl) (by rfl)⟩

/-- Claim C8: a successful classification reports firmware type `IPxe`
exactly when the packet carries a UserClassInformation option (77) whose
payload is the UTF-8 string "iPXE"; moreover the option-77 branch of the
walk never fails, whatever the payload. -/
theorem pxe_discover_firmware_ipxe (p : DhcpPacket) (info : PxeClientInfo)
    (h : pxe_discover p = some (.ok info)) :
    (info.firmware_type = .IPxe ↔
      ∃ o ∈ p.options, o.kind = 77 ∧ o.data = iPXEBytes) ∧
    (∀ (st : WalkState) (o : DhcpOption), o.kind = 77 →
      ∃ st1, processOption st o = some (.ok st1)) := by
  constructor
  · unfold pxe_discover at h
    by_cases hop : p.opcode ≠ 1
    · rw [if_pos hop] at h
      simp at h
    · rw [if_neg hop] at h
      cases hw : walk initWalkState p.options with
      | none => rw [hw] at h; cases h
      | some r =>
        rw [hw] at h
        cases r with
        | error e => simp at h
        | ok st =>
          obtain ⟨_, _, _, hfw, _, _, _, _⟩ := buildInfo_ok_fields (Option.some.inj h)
          obtain ⟨_, _, _, _, _, _, hiff⟩ := walk_ok_fields hw
          rw [← hfw, synthesize_firmware, hiff]
          simp [initWalkState]
  · intro st o h77
    refine ⟨if o.data = iPXEBytes then { st with firmware_type := .IPxe } else st, ?_⟩
    unfold processOption
    rw [h77]
    simp [recognizedKind]

/-- Witness for claim C8: the Discover fixture (whose option 77 carries
"iPXE") classifies with firmware type `IPxe`. -/
theorem pxe_discover_firmware_ipxe_witness :
    pxe_discover pxeDiscoverPacket = some (.ok discoverInfo) ∧
    discoverInfo.firmware_type = .IPxe :=
  ⟨by rfl,
   (pxe_discover_firmware_ipxe pxeDiscoverPacket discoverInfo (by rfl)).1.mpr
     ⟨⟨77, iPXEBytes⟩, by decide⟩⟩
